import Mathlib

/-!
Verification of the quickfeed submission reconciliation core.

The repository has two relevant layers, embedded here:

* the Go `database` package (`GormDB`): `CreateSubmission`, `GetSubmission`,
  `GetLastSubmissions`, `UpdateSubmissions`, `CreateReview`, `UpdateReview`;
* the TypeScript `CourseManager` class: `getStudentCourseForTeacher`,
  `fillLinks`, `fillLinksGroup`.

The Go layer is written against GORM v1 (jinzhu/gorm), whose semantics are
part of the observable behaviour and are modelled faithfully:

* a struct used as a query condition (`Where(&struct)`, inline conditions)
  contributes an equality clause only for each field holding a non-zero
  value (zero number, empty string, `false` are "blank" and omitted);
* a struct used as update/assign attributes (`Assign(&struct)`,
  `Update(&struct)`, `Updates(&struct)`) writes only non-blank fields;
* a map used as update attributes (`Updates(map[...])`) writes every listed
  field, including zero values;
* `Last(out, where)` / `First(out, where)` scan the found row into `out`;
  in `CreateSubmission` the `out` argument is the `query` object itself, so
  after a successful lookup `query` holds the full stored row and later
  `Where(query)` clauses match on all of that row's non-blank fields;
* `FirstOrCreate` with pending `Assign` attributes updates the first row
  matching the current conditions, or creates a row initialised from the
  conditions plus the assign attributes.

Machine integers (uint64 ids, uint32 scores) are modelled as `Nat`; no
operation here can overflow them. `pb.Submission`'s string payload fields
(CommitHash, BuildInfo, ScoreObjects, ApprovedDate) all behave identically
under GORM's blank-field rules and are collapsed into the single string
field `buildInfo`. The store (`db.conn`) is external; store faults are
modelled by the `failing` set of assignment ids whose submission lookups
error (used by `GetLastSubmissions`, the one operation whose claims are
about fault behaviour).
-/

namespace QF

/-- Error kinds surfaced by the database layer. The Go code only ever
produces `recordNotFound` (gorm.ErrRecordNotFound) and `storeFailure`
(any other persistence error); `invalidReference` exists so that the
spec's claimed distinct error kind for malformed references is statable. -/
inductive DBErr where
  | recordNotFound
  | invalidReference
  | storeFailure
  deriving DecidableEq, Repr

/-- `pb.Submission`: id, assignment/user/group references, score,
approval status (enum as `Nat`, 0 = NONE), released flag, and the string
payload fields collapsed into `buildInfo`. -/
structure Submission where
  id : Nat
  assignmentID : Nat
  userID : Nat
  groupID : Nat
  score : Nat
  status : Nat
  released : Bool
  buildInfo : String
  deriving DecidableEq, Repr

/-- `pb.Assignment`: identifier and course reference. -/
structure Assignment where
  id : Nat
  courseID : Nat
  deriving DecidableEq, Repr

/-- `pb.Review`: identifier, submission and reviewer references, feedback
text, structured review content, ready flag and score. -/
structure Review where
  id : Nat
  submissionID : Nat
  reviewerID : Nat
  feedback : String
  review : String
  ready : Bool
  score : Nat
  deriving DecidableEq, Repr

/-- The database state behind `db.conn`. Users, groups and courses are
kept as id lists (only their existence is consulted by the code under
verification). `failing` is the fault model: assignment ids for which a
submission lookup errors with a non-not-found store error. `nextID` is
the next auto-assigned primary key for submissions. -/
structure DB where
  users : List Nat
  groups : List Nat
  courses : List Nat
  assignments : List Assignment
  submissions : List Submission
  reviews : List Review
  failing : List Nat
  nextID : Nat
  deriving DecidableEq, Repr

/-- GORM struct-as-condition matching for submissions: each non-blank
field of the query `q` contributes an equality clause against row `r`;
blank fields (0, `false`, `""`) are omitted. -/
def matchSub (q r : Submission) : Bool :=
  (q.id == 0 || r.id == q.id) &&
  (q.assignmentID == 0 || r.assignmentID == q.assignmentID) &&
  (q.userID == 0 || r.userID == q.userID) &&
  (q.groupID == 0 || r.groupID == q.groupID) &&
  (q.score == 0 || r.score == q.score) &&
  (q.status == 0 || r.status == q.status) &&
  (!q.released || r.released == q.released) &&
  (q.buildInfo == "" || r.buildInfo == q.buildInfo)

/-- GORM struct-as-attributes assignment: each non-blank field of `src`
overwrites the corresponding field of `dst`; blank fields are skipped. -/
def assignSub (dst src : Submission) : Submission :=
  { id := if src.id == 0 then dst.id else src.id
    assignmentID := if src.assignmentID == 0 then dst.assignmentID else src.assignmentID
    userID := if src.userID == 0 then dst.userID else src.userID
    groupID := if src.groupID == 0 then dst.groupID else src.groupID
    score := if src.score == 0 then dst.score else src.score
    status := if src.status == 0 then dst.status else src.status
    released := if src.released then true else dst.released
    buildInfo := if src.buildInfo == "" then dst.buildInfo else src.buildInfo }

/-- The fresh query struct built in `CreateSubmission`: only the matching
triple (assignment, user, group) of the incoming submission, all other
fields zero. -/
def querySub (s : Submission) : Submission :=
  { id := 0, assignmentID := s.assignmentID, userID := s.userID,
    groupID := s.groupID, score := 0, status := 0, released := false,
    buildInfo := "" }

/-- The forced zero-score write at the end of `CreateSubmission`:
`db.conn.Model(submission).Where(query).Updates(map{"Score": 0})`.
Runs only when the incoming score is 0; being a map update it writes the
zero. Conditions: the non-blank fields of `query1` (which, after a
successful `Last`, is the full previously stored row) plus the primary
key of the `Model` value when non-zero. -/
def forceZero (s query1 : Submission) (subs : List Submission) : List Submission :=
  if s.score == 0 then
    subs.map (fun r =>
      if (s.id == 0 || r.id == s.id) && matchSub query1 r then
        { r with score := 0 }
      else r)
  else subs

/-- The body of `CreateSubmission` after the reference-shape checks, with
the owner-existence count already taken (`db.conn.First(&User{ID}).Count`
or the group analogue: the number of owner rows with the given id).

Models lines 404-449 of the Go source: count the assignment rows, require
`ownerCount + assignmentCount == 2`; `db.conn.Last(query, query)` (which
loads the found row into `query`); `Where(query).Assign(submission)
.FirstOrCreate(&labSubmission)`; the forced zero-score write; and setting
`submission.ID` from the merged/created row. -/
def createSubmissionChecked (db : DB) (s : Submission) (ownerCount : Nat) :
    Except DBErr Submission × DB :=
  let assignmentCount := (db.assignments.filter (fun a => a.id == s.assignmentID)).length
  if ownerCount + assignmentCount ≠ 2 then (.error .recordNotFound, db)
  else
    let query0 := querySub s
    let query1 := ((db.submissions.filter (fun r => matchSub query0 r)).getLast?).getD query0
    match db.submissions.find? (fun r => matchSub query1 r) with
    | some row =>
        let updated := assignSub row s
        let subs1 := db.submissions.map (fun r => if r.id == row.id then updated else r)
        (.ok { s with id := row.id }, { db with submissions := forceZero s query1 subs1 })
    | none =>
        let preset := assignSub query0 s
        let created := if preset.id == 0 then { preset with id := db.nextID } else preset
        let subs1 := db.submissions ++ [created]
        (.ok { s with id := created.id },
         { db with submissions := forceZero s query1 subs1,
                   nextID := if preset.id == 0 then db.nextID + 1 else db.nextID })

/-- `GormDB.CreateSubmission`. Returns the result (the incoming submission
with its id set on success) together with the resulting database state;
error paths return the database unchanged (no write happens before them
in the source). The owner-existence check is modelled by the count of
owner rows with the referenced id: in the source a failed `First` makes
`m.Count(&group).Error` non-nil and returns `gorm.ErrRecordNotFound`
early, while a zero count fails the `assignment+group != 2` test — both
observable as `recordNotFound` with no write, as here. -/
def CreateSubmission (db : DB) (s : Submission) : Except DBErr Submission × DB :=
  if s.assignmentID < 1 then (.error .recordNotFound, db)
  else if s.userID > 0 && s.groupID > 0 then (.error .recordNotFound, db)
  else if s.userID > 0 then createSubmissionChecked db s (db.users.count s.userID)
  else if s.groupID > 0 then createSubmissionChecked db s (db.groups.count s.groupID)
  else (.error .recordNotFound, db)

/-- `GormDB.GetSubmission`: `db.conn.Preload("Reviews").Where(query)
.Last(&submission)`. Returns the most recently created row matching the
query's non-blank fields, `recordNotFound` if none, or a store failure
when the queried assignment is in the fault set. (The preloaded reviews
are not part of the row structure here; no claim inspects them.) -/
def GetSubmission (db : DB) (q : Submission) : Except DBErr Submission :=
  if q.assignmentID ∈ db.failing then .error .storeFailure
  else
    match (db.submissions.filter (fun r => matchSub q r)).getLast? with
    | some r => .ok r
    | none => .error .recordNotFound

/-- The per-assignment loop of `GetLastSubmissions`: for each assignment,
overwrite the query's assignment id and fetch the latest submission;
skip the assignment on `recordNotFound`, abort on any other error. -/
def getLastLoop (db : DB) (q : Submission) :
    List Assignment → Except DBErr (List Submission)
  | [] => .ok []
  | a :: rest =>
      match GetSubmission db { q with assignmentID := a.id } with
      | .ok sub => (getLastLoop db { q with assignmentID := a.id } rest).map (sub :: ·)
      | .error .recordNotFound => getLastLoop db { q with assignmentID := a.id } rest
      | .error e => .error e

/-- The assignments preloaded for a course:
`db.conn.Preload("Assignments").First(&course, courseID)`. -/
def courseAssignments (db : DB) (courseID : Nat) : List Assignment :=
  db.assignments.filter (fun a => a.courseID == courseID)

/-- `GormDB.GetLastSubmissions`: load the course with its assignments,
then collect the latest submission per assignment for the given owner
query, skipping assignments with no match and aborting on any other
lookup error. -/
def GetLastSubmissions (db : DB) (courseID : Nat) (q : Submission) :
    Except DBErr (List Submission) :=
  if courseID ∈ db.courses then getLastLoop db q (courseAssignments db courseID)
  else .error .recordNotFound

/-- `GormDB.UpdateSubmissions`: bulk update of every submission row with
the query's assignment id and score ≥ the query's score (both conditions
are explicit SQL strings). The update attributes are a struct holding
only `Status` and `Released`, so GORM writes each of them only when
non-blank: a zero status and a `false` released flag are skipped. -/
def bulkApproveRow (q r : Submission) : Submission :=
  { r with status := if q.status == 0 then r.status else q.status,
           released := if q.released then true else r.released }

/-- `GormDB.UpdateSubmissions` proper: the bulk write applying
`bulkApproveRow` to every row matching the two SQL conditions. -/
def UpdateSubmissions (db : DB) (courseID : Nat) (q : Submission) :
    Except DBErr Unit × DB :=
  (.ok (),
   { db with submissions := db.submissions.map (fun r =>
      if r.assignmentID == q.assignmentID && q.score ≤ r.score then bulkApproveRow q r
      else r) })

/-- GORM struct-as-condition matching for reviews, as built by
`UpdateReview`'s `Where(&Review{ID, SubmissionID, ReviewerID})`: an
equality clause for each non-zero identifier. -/
def matchReview (q r : Review) : Bool :=
  (q.id == 0 || r.id == q.id) &&
  (q.submissionID == 0 || r.submissionID == q.submissionID) &&
  (q.reviewerID == 0 || r.reviewerID == q.reviewerID)

/-- The struct update of `UpdateReview`:
`Update(&Review{Feedback, Review, Ready, Score})` writes each of the four
content fields only when non-blank. Identity fields are not in the
attribute struct and are never written. -/
def updateReviewRow (q r : Review) : Review :=
  { r with feedback := if q.feedback == "" then r.feedback else q.feedback,
           review := if q.review == "" then r.review else q.review,
           ready := if q.ready then true else r.ready,
           score := if q.score == 0 then r.score else q.score }

/-- `GormDB.UpdateReview`: match-then-update; zero matched rows update
zero rows and the call still succeeds. -/
def UpdateReview (db : DB) (q : Review) : Except DBErr Unit × DB :=
  (.ok (),
   { db with reviews := db.reviews.map (fun r =>
      if matchReview q r then updateReviewRow q r else r) })

/-- `GormDB.CreateReview`: plain insert, the store assigns identity. -/
def CreateReview (db : DB) (q : Review) : Except DBErr Review × DB :=
  let created := { q with id := db.nextID }
  (.ok created, { db with reviews := db.reviews ++ [created], nextID := db.nextID + 1 })

/-- Database well-formedness: primary keys are unique in each table and
submission ids stay below the id counter (what a relational store's
key constraints and auto-increment guarantee). -/
def DB.WF (db : DB) : Prop :=
  db.users.Nodup ∧ db.groups.Nodup ∧
  (db.assignments.map Assignment.id).Nodup ∧
  (db.submissions.map Submission.id).Nodup ∧
  (∀ r ∈ db.submissions, r.id < db.nextID)

instance (db : DB) : Decidable db.WF := by
  unfold DB.WF; infer_instance

/-!
The TypeScript `CourseManager` side. Proto getters/setters become plain
record fields (unset proto scalars default to 0 / the empty string);
`Enrollment.setUser`/`setCourse` store object references not consulted by
the code under verification and are elided. The course provider is the
external server: its data is a record, and each embedded method also
returns the list of provider calls it performed, so that "no store
round-trip" claims are statable. -/

/-- `proto.User`: the fields the aggregator reads (`getId`, `getName`). -/
structure User where
  id : Nat
  name : String
  deriving DecidableEq, Repr

/-- `proto.Course`: the fields the aggregator reads (`getId`). -/
structure Course where
  id : Nat
  deriving DecidableEq, Repr

/-- `proto.Group`: the fields the aggregator reads
(`getId`, `getCourseid`, `getName`). -/
structure Group where
  id : Nat
  courseid : Nat
  name : String
  deriving DecidableEq, Repr

/-- `proto.Enrollment`: scalar fields set by the aggregator
(`setUserid`, `setGroupid`, `setCourseid`, `setStatus`). -/
structure Enrollment where
  userid : Nat
  groupid : Nat
  courseid : Nat
  status : Nat
  deriving DecidableEq, Repr

/-- `ISubmission` as returned by `getAllLabInfos` /
`getAllGroupLabInfos`: the lab-info rows the server keeps, keyed by
course, owner and assignment. -/
structure LabRow where
  id : Nat
  courseid : Nat
  userid : Nat
  groupid : Nat
  assignmentid : Nat
  score : Nat
  deriving DecidableEq, Repr

/-- An entry of `IAssignmentLink.assignments`: `{ assignment, latest,
authorName }` (an `IStudentSubmission`). -/
structure StudentSubmission where
  assignment : Assignment
  latest : Option LabRow
  authorName : String
  deriving DecidableEq, Repr

/-- `IAssignmentLink`: the enrollment link (possibly undefined), the
course, and the assignment/submission pairings. -/
structure IAssignmentLink where
  link : Option Enrollment
  course : Course
  assignments : List StudentSubmission
  deriving DecidableEq, Repr

/-- `IUserRelation`: a user together with its enrollment link (of which
only `getStatus` is read here). -/
structure IUserRelation where
  user : User
  status : Nat
  deriving DecidableEq, Repr

/-- A call made to the course provider (the external store). -/
inductive PCall where
  | getAssignments (courseID : Nat)
  | getAllLabInfos (courseID : Nat) (userID : Nat)
  | getAllGroupLabInfos (courseID : Nat) (groupID : Nat)
  deriving DecidableEq, Repr

/-- The course provider's data: the assignment table and the lab-info
rows its submission endpoints serve. -/
structure Provider where
  assignments : List Assignment
  labs : List LabRow
  deriving DecidableEq, Repr

/-- `courseProvider.getAssignments(courseID)`. -/
def Provider.assignmentsFor (p : Provider) (courseID : Nat) : List Assignment :=
  p.assignments.filter (fun a => a.courseID == courseID)

/-- `courseProvider.getAllLabInfos(courseID, userId)`. -/
def Provider.allLabInfos (p : Provider) (courseID userID : Nat) : List LabRow :=
  p.labs.filter (fun l => l.courseid == courseID && l.userid == userID)

/-- `courseProvider.getAllGroupLabInfos(courseID, groupID)`. -/
def Provider.allGroupLabInfos (p : Provider) (courseID groupID : Nat) : List LabRow :=
  p.labs.filter (fun l => l.courseid == courseID && l.groupid == groupID)

/-- `CourseManager.fillLinks(student, studentCourse, assignments?)`:
bail out if the link is unset; fetch the course's assignments when none
were supplied (a supplied empty array is truthy in JS and is used as is);
if the assignment list is nonempty, fetch the student's submission batch
once and pair each assignment, in order, with the first batch entry whose
`assignmentid` matches, pushing onto the link's assignment list. Returns
the updated link and the provider calls performed. -/
def fillLinks (p : Provider) (student : User) (studentCourse : IAssignmentLink)
    (assignmentsOpt : Option (List Assignment)) : IAssignmentLink × List PCall :=
  match studentCourse.link with
  | none => (studentCourse, [])
  | some _ =>
    let fetched := match assignmentsOpt with
      | none => (p.assignmentsFor studentCourse.course.id,
                 [PCall.getAssignments studentCourse.course.id])
      | some as => (as, [])
    let assignments := fetched.1
    if assignments.length > 0 then
      let submissions := p.allLabInfos studentCourse.course.id student.id
      let entries := assignments.map (fun a =>
        { assignment := a,
          latest := submissions.find? (fun sub => sub.assignmentid == a.id),
          authorName := student.name : StudentSubmission })
      ({ studentCourse with assignments := studentCourse.assignments ++ entries },
       fetched.2 ++ [PCall.getAllLabInfos studentCourse.course.id student.id])
    else (studentCourse, fetched.2)

/-- `CourseManager.fillLinksGroup(group, groupCourse, assignments?)`:
the group variant of `fillLinks`, substituting the group's submission
batch and the group's display name. -/
def fillLinksGroup (p : Provider) (group : Group) (groupCourse : IAssignmentLink)
    (assignmentsOpt : Option (List Assignment)) : IAssignmentLink × List PCall :=
  match groupCourse.link with
  | none => (groupCourse, [])
  | some _ =>
    let fetched := match assignmentsOpt with
      | none => (p.assignmentsFor groupCourse.course.id,
                 [PCall.getAssignments groupCourse.course.id])
      | some as => (as, [])
    let assignments := fetched.1
    if assignments.length > 0 then
      let submissions := p.allGroupLabInfos groupCourse.course.id group.id
      let entries := assignments.map (fun a =>
        { assignment := a,
          latest := submissions.find? (fun sub => sub.assignmentid == a.id),
          authorName := group.name : StudentSubmission })
      ({ groupCourse with assignments := groupCourse.assignments ++ entries },
       fetched.2 ++ [PCall.getAllGroupLabInfos groupCourse.course.id group.id])
    else (groupCourse, fetched.2)

/-- `CourseManager.getStudentCourseForTeacher(student, course,
assignments)` (the spec's `buildStudentLink`): build a fresh enrollment
for the student and course, start from an empty assignment list, and
fill it via `fillLinks` with the supplied assignments. -/
def getStudentCourseForTeacher (p : Provider) (student : IUserRelation)
    (course : Course) (assignments : List Assignment) :
    Option IAssignmentLink × List PCall :=
  let enrol : Enrollment :=
    { userid := student.user.id, groupid := 0, courseid := course.id,
      status := student.status }
  let userCourse : IAssignmentLink :=
    { link := some enrol, assignments := [], course := course }
  let filled := fillLinks p student.user userCourse (some assignments)
  (some filled.1, filled.2)

/-! Concrete store states and inputs used by the witnesses,
counterexamples and failing-input evaluations below. -/

/-- A store with user 1, assignment 1, and one graded submission for
(assignment 1, user 1): score 7, status 1 (approved). -/
def exDB : DB :=
  { users := [1], groups := [], courses := [], assignments := [{ id := 1, courseID := 1 }],
    submissions := [{ id := 1, assignmentID := 1, userID := 1, groupID := 0,
                      score := 7, status := 1, released := false, buildInfo := "" }],
    reviews := [], failing := [], nextID := 2 }

/-- An incoming ungraded (score 0) submission for (assignment 1, user 1)
that also moves the status to 2 (revision). -/
def exSubRevision : Submission :=
  { id := 0, assignmentID := 1, userID := 1, groupID := 0,
    score := 0, status := 2, released := false, buildInfo := "" }

/-- A store with user 1 and assignment 1 and no submissions. -/
def exDB0 : DB :=
  { users := [1], groups := [], courses := [], assignments := [{ id := 1, courseID := 1 }],
    submissions := [], reviews := [], failing := [], nextID := 1 }

/-- A well-shaped incoming submission for (assignment 1, user 1). -/
def exSub0 : Submission :=
  { id := 0, assignmentID := 1, userID := 1, groupID := 0,
    score := 5, status := 1, released := false, buildInfo := "x" }

/-- An incoming submission with no assignment reference. -/
def exSubNoAssignment : Submission := { exSub0 with assignmentID := 0 }

/-- A well-shaped incoming submission referencing the absent user 9. -/
def exSubMissingUser : Submission := { exSub0 with userID := 9 }

/-- A store holding one approved, released submission with score 50 for
assignment 1. -/
def c5DB : DB :=
  { exDB0 with submissions := [{ id := 1, assignmentID := 1, userID := 1, groupID := 0,
                                 score := 50, status := 1, released := true, buildInfo := "" }] }

/-- A bulk-update query for assignment 1 with threshold 0, new status 0
(NONE) and released flag false. -/
def c5Q : Submission :=
  { id := 0, assignmentID := 1, userID := 0, groupID := 0,
    score := 0, status := 0, released := false, buildInfo := "" }

/-- A store with course 9 owning assignments 1, 2 and 3, where user 1 has
two submissions for assignment 1 (latest id 2) and none for the others. -/
def c6DB : DB :=
  { users := [1], groups := [], courses := [9],
    assignments := [{ id := 1, courseID := 9 }, { id := 2, courseID := 9 },
                    { id := 3, courseID := 9 }],
    submissions := [{ id := 1, assignmentID := 1, userID := 1, groupID := 0,
                      score := 3, status := 0, released := false, buildInfo := "" },
                    { id := 2, assignmentID := 1, userID := 1, groupID := 0,
                      score := 9, status := 0, released := false, buildInfo := "" }],
    reviews := [], failing := [], nextID := 3 }

/-- The same store with the lookup for assignment 2 made to fail with a
store error. -/
def c6DBbad : DB := { c6DB with failing := [2] }

/-- The owner filter for user 1 used by the per-course lookup. -/
def c6Q : Submission :=
  { id := 0, assignmentID := 0, userID := 1, groupID := 0,
    score := 0, status := 0, released := false, buildInfo := "" }

/-- A store holding one ready review with nonempty content. -/
def c8DB : DB :=
  { exDB0 with reviews := [{ id := 1, submissionID := 2, reviewerID := 3,
                             feedback := "old", review := "r", ready := true, score := 5 }] }

/-- A review update matching that row on all three identifiers but with
every content field blank (empty feedback/review, ready false, score 0). -/
def c8Q : Review :=
  { id := 1, submissionID := 2, reviewerID := 3,
    feedback := "", review := "", ready := false, score := 0 }

/-- A review update matching that row with fresh nonempty content. -/
def c8Q2 : Review :=
  { id := 1, submissionID := 2, reviewerID := 3,
    feedback := "better", review := "r2", ready := true, score := 9 }

/-- A provider serving course 5 with assignments 1 and 2 and a single
score-80 lab row for user 7 on assignment 1. -/
def exProv : Provider :=
  { assignments := [{ id := 1, courseID := 5 }, { id := 2, courseID := 5 }],
    labs := [{ id := 10, courseid := 5, userid := 7, groupid := 0,
               assignmentid := 1, score := 80 }] }

/-- Student 7 with enrollment status 2. -/
def exUR : IUserRelation := { user := { id := 7, name := "S" }, status := 2 }

/-- A provider whose lab batch for (course 5, user 7) holds two rows for
assignment 1, the older-looking one (id 11) first. -/
def exProvDup : Provider :=
  { assignments := [{ id := 1, courseID := 5 }],
    labs := [{ id := 11, courseid := 5, userid := 7, groupid := 3,
               assignmentid := 1, score := 40 },
             { id := 12, courseid := 5, userid := 7, groupid := 3,
               assignmentid := 1, score := 90 }] }

/-- An assignment link for course 5 with a present enrollment and an
empty pairing list, as the callers of `fillLinks` construct it. -/
def exLink : IAssignmentLink :=
  { link := some { userid := 7, groupid := 0, courseid := 5, status := 2 },
    course := { id := 5 }, assignments := [] }

/-- Group 3 enrolled in course 5. -/
def exGroup : Group := { id := 3, courseid := 5, name := "G" }

/-! Helper lemmas shared by the claim theorems. -/

theorem matchSub_refl (q : Submission) : matchSub q q = true := by
  simp [matchSub]

theorem matchSub_head_false (q r : Submission) (h : q.id ≠ 0) (h2 : r.id ≠ q.id) :
    matchSub q r = false := by
  simp [matchSub, h2, Ne.symm h2]
  intro h3
  exact absurd h3 h

theorem matchSub_querySub_copy (s : Submission) (n : Nat) :
    matchSub (querySub s) { s with id := n } = true := by
  simp [matchSub, querySub]

theorem assignSub_querySub (s : Submission) : assignSub (querySub s) s = s := by
  unfold assignSub querySub
  cases s
  simp only [Submission.mk.injEq]
  refine ⟨?_, ?_, ?_, ?_, ?_, ?_, ?_, ?_⟩ <;> split <;> simp_all

theorem assignSub_copy (s : Submission) (n : Nat) (hid : s.id = 0) :
    assignSub { s with id := n } s = { s with id := n } := by
  unfold assignSub
  cases s
  simp only [Submission.mk.injEq]
  subst hid
  refine ⟨?_, ?_, ?_, ?_, ?_, ?_, ?_, ?_⟩ <;> split <;> simp_all

theorem length_filter_le_one_of_nodup_map {α : Type} (f : α → Nat) (x : Nat) :
    ∀ l : List α, (l.map f).Nodup → (l.filter (fun a => f a == x)).length ≤ 1 := by
  intro l
  induction l with
  | nil => simp
  | cons a t ih =>
      intro h
      rw [List.map_cons, List.nodup_cons] at h
      rw [List.filter_cons]
      split
      · next hax =>
          have hfa : f a = x := by simpa using hax
          have : t.filter (fun b => f b == x) = [] := by
            rw [List.filter_eq_nil_iff]
            intro b hb hbx
            have hfb : f b = x := by simpa using hbx
            exact h.1 (by rw [hfa, ← hfb]; exact List.mem_map_of_mem f hb)
          simp [this]
      · exact ih h.2

theorem length_filter_eq_one_of_mem {α : Type} (f : α → Nat) (x : Nat) (l : List α)
    (hn : (l.map f).Nodup) (a : α) (ha : a ∈ l) (hfa : f a = x) :
    (l.filter (fun b => f b == x)).length = 1 := by
  refine Nat.le_antisymm (length_filter_le_one_of_nodup_map f x l hn) ?_
  have : a ∈ l.filter (fun b => f b == x) := by
    rw [List.mem_filter]
    exact ⟨ha, by simp [hfa]⟩
  have := List.length_pos.mpr (List.ne_nil_of_mem this)
  omega

theorem map_id_of_eq {α : Type} (f : α → α) (l : List α) (h : ∀ x ∈ l, f x = x) :
    l.map f = l := by
  induction l with
  | nil => rfl
  | cons a t ih => rw [List.map_cons, h a (.head t), ih (fun x hx => h x (.tail a hx))]

theorem getLastLoop_override (db : DB) (q : Submission) (x : Nat) :
    ∀ as : List Assignment,
      getLastLoop db { q with assignmentID := x } as = getLastLoop db q as := by
  intro as
  induction as with
  | nil => rfl
  | cons a rest _ => rfl

theorem getSubmission_not_failing (db : DB) (q : Submission)
    (h : q.assignmentID ∉ db.failing) :
    GetSubmission db q =
      match (db.submissions.filter (fun r => matchSub q r)).getLast? with
      | some r => .ok r
      | none => .error .recordNotFound := by
  unfold GetSubmission
  rw [if_neg h]

theorem getSubmission_failing (db : DB) (q : Submission)
    (h : q.assignmentID ∈ db.failing) :
    GetSubmission db q = .error .storeFailure := by
  unfold GetSubmission
  rw [if_pos h]

theorem getLastLoop_ok (db : DB) (q : Submission) :
    ∀ as : List Assignment, (∀ a ∈ as, a.id ∉ db.failing) →
    getLastLoop db q as = .ok (as.filterMap (fun a =>
      (db.submissions.filter
        (fun r => matchSub { q with assignmentID := a.id } r)).getLast?)) := by
  intro as
  induction as with
  | nil => intro _; rfl
  | cons a rest ih =>
      intro h
      have hgs := getSubmission_not_failing db { q with assignmentID := a.id }
        (by simpa using h a (.head rest))
      have hrest := ih (fun b hb => h b (.tail a hb))
      unfold getLastLoop
      rw [hgs]
      cases hLast : (db.submissions.filter
          (fun r => matchSub { q with assignmentID := a.id } r)).getLast? with
      | some r =>
          simp only [getLastLoop_override, hrest, Except.map, List.filterMap_cons, hLast]
      | none =>
          simp only [getLastLoop_override, hrest, List.filterMap_cons, hLast]

theorem getLastLoop_abort (db : DB) (q : Submission) :
    ∀ as : List Assignment, (∃ a ∈ as, a.id ∈ db.failing) →
    getLastLoop db q as = .error .storeFailure := by
  intro as
  induction as with
  | nil => rintro ⟨a, ha, _⟩; cases ha
  | cons a rest ih =>
      rintro ⟨b, hb, hbf⟩
      unfold getLastLoop
      by_cases haf : a.id ∈ db.failing
      · rw [getSubmission_failing db _ (by simpa using haf)]
      · have hbtail : b ∈ rest := by
          rcases List.mem_cons.mp hb with rfl | hbt
          · exact absurd hbf haf
          · exact hbt
        have hrest := ih ⟨b, hbtail, hbf⟩
        rw [getSubmission_not_failing db _ (by simpa using haf)]
        cases hLast : (db.submissions.filter
            (fun r => matchSub { q with assignmentID := a.id } r)).getLast? with
        | some r => simp only [getLastLoop_override, hrest, Except.map]
        | none => simp only [getLastLoop_override, hrest]

/-- C6: `GetLastSubmissions` returns, in assignment order, one latest
submission per assignment for exactly the subset of the course's
assignments that have a matching submission for the queried owner —
assignments with no match are silently skipped — and when any
per-assignment lookup fails with a store error other than not-found, the
whole call aborts with that error and returns no partial result. -/
theorem getLastSubmissions_skip_and_abort (db db2 : DB) (c c2 : Nat) (q q2 : Submission)
    (h1 : c ∈ db.courses)
    (hok : ∀ a ∈ courseAssignments db c, a.id ∉ db.failing)
    (h2 : c2 ∈ db2.courses)
    (hbad : ∃ a ∈ courseAssignments db2 c2, a.id ∈ db2.failing) :
    GetLastSubmissions db c q =
      .ok ((courseAssignments db c).filterMap (fun a =>
        (db.submissions.filter
          (fun r => matchSub { q with assignmentID := a.id } r)).getLast?)) ∧
    GetLastSubmissions db2 c2 q2 = .error .storeFailure := by
  constructor
  · unfold GetLastSubmissions
    rw [if_pos h1]
    exact getLastLoop_ok db q _ hok
  · unfold GetLastSubmissions
    rw [if_pos h2]
    exact getLastLoop_abort db2 q2 _ hbad

/-- C6 witness: course 9 has assignments 1, 2 and 3; user 1 has two
submissions for assignment 1 only, so the healthy store yields exactly
the latest of them (id 2) and skips assignments 2 and 3, while the store
whose assignment-2 lookup errors aborts the whole call. -/
theorem getLastSubmissions_skip_and_abort_witness :
    GetLastSubmissions c6DB 9 c6Q =
      .ok [{ id := 2, assignmentID := 1, userID := 1, groupID := 0,
             score := 9, status := 0, released := false, buildInfo := "" }] ∧
    GetLastSubmissions c6DBbad 9 c6Q = .error .storeFailure := by
  have happ := getLastSubmissions_skip_and_abort c6DB c6DBbad 9 9 c6Q c6Q
    (by decide) (by decide) (by decide)
    ⟨{ id := 2, courseID := 9 }, by decide, by decide⟩
  exact ⟨by rw [happ.1]; rfl, happ.2⟩

theorem createSubmissionChecked_fail (db : DB) (s : Submission) (oc : Nat)
    (h : oc + (db.assignments.filter (fun a => a.id == s.assignmentID)).length ≠ 2) :
    createSubmissionChecked db s oc = (.error .recordNotFound, db) := by
  unfold createSubmissionChecked
  simp [h]

theorem forceZero_fresh (s : Submission) (subs : List Submission) (n : Nat)
    (hid : s.id = 0)
    (hmiss : ∀ r ∈ subs, matchSub (querySub s) r = false) :
    forceZero s (querySub s) (subs ++ [{ s with id := n }]) =
      subs ++ [{ s with id := n }] := by
  unfold forceZero
  split
  · next hsc =>
      apply map_id_of_eq
      intro x hx
      rcases List.mem_append.mp hx with hx1 | hx2
      · rw [if_neg]
        simp [hmiss x hx1]
      · have hx2eq : x = { s with id := n } := by simpa using hx2
        subst hx2eq
        rw [if_pos (by simp [matchSub_querySub_copy, hid])]
        have hs0 : s.score = 0 := by simpa using hsc
        simp [hs0]
  · rfl

theorem createSubmissionChecked_create (db : DB) (s : Submission)
    (hid : s.id = 0)
    (hA : (db.assignments.filter (fun a => a.id == s.assignmentID)).length = 1)
    (hnew : db.submissions.filter (fun r => matchSub (querySub s) r) = []) :
    createSubmissionChecked db s 1 =
      (.ok { s with id := db.nextID },
       { db with submissions := db.submissions ++ [{ s with id := db.nextID }],
                 nextID := db.nextID + 1 }) := by
  have hmiss : ∀ r ∈ db.submissions, matchSub (querySub s) r = false := by
    intro r hr
    have := List.filter_eq_nil_iff.mp hnew r hr
    simpa using this
  have hfind : db.submissions.find? (fun r => matchSub (querySub s) r) = none :=
    List.find?_eq_none.mpr (fun x hx => by simp [hmiss x hx])
  unfold createSubmissionChecked
  simp only [hA, hnew, List.getLast?_nil, Option.getD_none, hfind, assignSub_querySub, hid]
  rw [if_neg (by omega)]
  simp only [beq_self_eq_true, if_true]
  rw [forceZero_fresh s db.submissions db.nextID hid hmiss]

theorem createSubmissionChecked_update_noop (db : DB) (s : Submission) (n : Nat)
    (subs : List Submission)
    (hid : s.id = 0)
    (hsubs : db.submissions = subs ++ [{ s with id := n }])
    (hA : (db.assignments.filter (fun a => a.id == s.assignmentID)).length = 1)
    (hmiss : ∀ r ∈ subs, matchSub (querySub s) r = false)
    (hids : ∀ r ∈ subs, r.id < n) :
    createSubmissionChecked db s 1 = (.ok { s with id := n }, db) := by
  have hfilter : db.submissions.filter (fun r => matchSub (querySub s) r) =
      [{ s with id := n }] := by
    rw [hsubs, List.filter_append,
      List.filter_eq_nil_iff.mpr (fun x hx => by simp [hmiss x hx])]
    simp [matchSub_querySub_copy]
  have hmatchrow_false : ∀ r ∈ subs, matchSub { s with id := n } r = false := by
    intro r hr
    have hlt := hids r hr
    exact matchSub_head_false _ r (show n ≠ 0 by omega) (show r.id ≠ n by omega)
  have hfind : db.submissions.find? (fun r => matchSub { s with id := n } r) =
      some { s with id := n } := by
    rw [hsubs, List.find?_append,
      List.find?_eq_none.mpr (fun x hx => by simp [hmatchrow_false x hx]), Option.none_or]
    simp [List.find?_cons, matchSub_refl]
  have hmapid : db.submissions.map
      (fun r => if r.id == ({ s with id := n } : Submission).id
        then assignSub { s with id := n } s else r) = db.submissions := by
    apply map_id_of_eq
    intro x hx
    rw [hsubs] at hx
    rcases List.mem_append.mp hx with hx1 | hx2
    · rw [if_neg]
      have := hids x hx1
      simp only [beq_iff_eq]
      show ¬(x.id = n)
      omega
    · have hx2eq : x = { s with id := n } := by simpa using hx2
      subst hx2eq
      rw [if_pos (by simp), assignSub_copy s n hid]
  have hforce : forceZero s { s with id := n } db.submissions = db.submissions := by
    unfold forceZero
    split
    · next hsc =>
        apply map_id_of_eq
        intro x hx
        rw [hsubs] at hx
        rcases List.mem_append.mp hx with hx1 | hx2
        · rw [if_neg]
          simp [hmatchrow_false x hx1]
        · have hx2eq : x = { s with id := n } := by simpa using hx2
          subst hx2eq
          rw [if_pos (by simp [matchSub_refl, hid])]
          have hs0 : s.score = 0 := by simpa using hsc
          simp [hs0]
    · rfl
  unfold createSubmissionChecked
  simp only [hA, hfilter, List.getLast?_singleton, Option.getD_some, hfind]
  rw [if_neg (by omega)]
  simp only [hmapid, hforce]

/-- C4: `CreateSubmission` is idempotent: against a well-formed store
holding no row matching the incoming submission's (assignment, owner)
triple, the first call appends exactly one row whose fields equal the
input (with the store-assigned id) and returns it, and a second call
with the identical submission is a complete no-op on the store — it
finds and updates the existing row rather than creating a new one — so
exactly one row matches the triple afterwards and the total row count
grew by exactly one across both calls. -/
theorem createSubmission_idempotent (db : DB) (s : Submission)
    (hwf : db.WF) (hid : s.id = 0) (ha : 1 ≤ s.assignmentID)
    (hshape : (0 < s.userID ∧ s.groupID = 0) ∨ (s.userID = 0 ∧ 0 < s.groupID))
    (huser : 0 < s.userID → s.userID ∈ db.users)
    (hgroup : 0 < s.groupID → s.groupID ∈ db.groups)
    (hasg : ∃ a ∈ db.assignments, a.id = s.assignmentID)
    (hnew : db.submissions.filter (fun r => matchSub (querySub s) r) = []) :
    CreateSubmission db s =
      (.ok { s with id := db.nextID },
       { db with submissions := db.submissions ++ [{ s with id := db.nextID }],
                 nextID := db.nextID + 1 }) ∧
    CreateSubmission (CreateSubmission db s).2 s =
      (.ok { s with id := db.nextID }, (CreateSubmission db s).2) ∧
    (CreateSubmission (CreateSubmission db s).2 s).2.submissions.filter
        (fun r => matchSub (querySub s) r) = [{ s with id := db.nextID }] ∧
    (CreateSubmission (CreateSubmission db s).2 s).2.submissions.length =
      db.submissions.length + 1 := by
  obtain ⟨a, haa, haid⟩ := hasg
  have hA : (db.assignments.filter (fun b => b.id == s.assignmentID)).length = 1 :=
    length_filter_eq_one_of_mem Assignment.id s.assignmentID db.assignments
      hwf.2.2.1 a haa haid
  have hmiss : ∀ r ∈ db.submissions, matchSub (querySub s) r = false := by
    intro r hr
    have := List.filter_eq_nil_iff.mp hnew r hr
    simpa using this
  have hdisp : ∀ db' : DB, db'.users = db.users → db'.groups = db.groups →
      CreateSubmission db' s = createSubmissionChecked db' s 1 := by
    intro db' hus hgs
    rcases hshape with ⟨hu, hg⟩ | ⟨hu, hg⟩
    · unfold CreateSubmission
      rw [if_neg (by omega), if_neg (by simp [hg]), if_pos hu, hus,
        List.count_eq_one_of_mem hwf.1 (huser hu)]
    · unfold CreateSubmission
      rw [if_neg (by omega), if_neg (by simp [hu]), if_neg (by omega), if_pos hg, hgs,
        List.count_eq_one_of_mem hwf.2.1 (hgroup hg)]
  have hstep1 : CreateSubmission db s =
      (.ok { s with id := db.nextID },
       { db with submissions := db.submissions ++ [{ s with id := db.nextID }],
                 nextID := db.nextID + 1 }) := by
    rw [hdisp db rfl rfl, createSubmissionChecked_create db s hid hA hnew]
  have hstep2 : CreateSubmission
      { db with submissions := db.submissions ++ [{ s with id := db.nextID }],
                nextID := db.nextID + 1 } s =
      (.ok { s with id := db.nextID },
       { db with submissions := db.submissions ++ [{ s with id := db.nextID }],
                 nextID := db.nextID + 1 }) := by
    rw [hdisp { db with submissions := db.submissions ++ [{ s with id := db.nextID }],
                        nextID := db.nextID + 1 } rfl rfl]
    exact createSubmissionChecked_update_noop _ s db.nextID db.submissions hid rfl hA
      hmiss hwf.2.2.2.2
  have hfilter1 : (db.submissions ++ [{ s with id := db.nextID }]).filter
      (fun r => matchSub (querySub s) r) = [{ s with id := db.nextID }] := by
    rw [List.filter_append, hnew]
    simp [matchSub_querySub_copy]
  refine ⟨hstep1, ?_, ?_, ?_⟩
  · simp only [hstep1]
    exact hstep2
  · simp only [hstep1, hstep2]
    exact hfilter1
  · simp only [hstep1, hstep2, List.length_append]
    rfl

/-- C4 witness: the idempotence theorem applied to the concrete store
with user 1 and assignment 1 and no submissions, upserting the same
score-5 submission twice. -/
theorem createSubmission_idempotent_witness :
    CreateSubmission exDB0 exSub0 =
      (.ok { exSub0 with id := 1 },
       { exDB0 with submissions := [{ exSub0 with id := 1 }], nextID := 2 }) ∧
    (CreateSubmission (CreateSubmission exDB0 exSub0).2 exSub0).2.submissions.length =
      exDB0.submissions.length + 1 := by
  have happ := createSubmission_idempotent exDB0 exSub0 (by decide) rfl (by decide)
    (Or.inl ⟨by decide, rfl⟩) (fun _ => by decide) (fun h => absurd h (by decide))
    ⟨{ id := 1, courseID := 1 }, by decide, rfl⟩ rfl
  exact ⟨by rw [happ.1]; rfl, happ.2.2.2⟩

/-- C2: for every submission that passes the reference-shape
precondition but whose referenced owner (user or group) or referenced
assignment is absent from the store, `CreateSubmission` fails with the
not-found error and performs no write. Under the store's key constraints
(`DB.WF`) each of the two existence checks counts at most one matching
row, the present ones count exactly one, and the `owner + assignment ≠ 2`
test therefore fails exactly when either count is zero. -/
theorem createSubmission_missing_reference_not_found (db : DB) (s : Submission)
    (hwf : db.WF) (ha : 1 ≤ s.assignmentID)
    (hshape : (0 < s.userID ∧ s.groupID = 0) ∨ (s.userID = 0 ∧ 0 < s.groupID))
    (hmiss : (0 < s.userID ∧ s.userID ∉ db.users) ∨
             (0 < s.groupID ∧ s.groupID ∉ db.groups) ∨
             (∀ a ∈ db.assignments, a.id ≠ s.assignmentID)) :
    CreateSubmission db s = (.error .recordNotFound, db) := by
  have hA1 : (db.assignments.filter (fun a => a.id == s.assignmentID)).length ≤ 1 :=
    length_filter_le_one_of_nodup_map Assignment.id s.assignmentID db.assignments hwf.2.2.1
  rcases hshape with ⟨hu, hg⟩ | ⟨hu, hg⟩
  · have hdisp : CreateSubmission db s = createSubmissionChecked db s (db.users.count s.userID) := by
      unfold CreateSubmission
      rw [if_neg (by omega), if_neg (by simp [hg]), if_pos hu]
    rw [hdisp]
    apply createSubmissionChecked_fail
    rcases hmiss with ⟨_, hnou⟩ | ⟨hgpos, _⟩ | hnoa
    · rw [List.count_eq_zero.mpr hnou]
      omega
    · omega
    · have hz : (db.assignments.filter (fun a => a.id == s.assignmentID)).length = 0 := by
        rw [List.filter_eq_nil_iff.mpr (fun a haa => by simp [hnoa a haa])]
        rfl
      have hcle : db.users.count s.userID ≤ 1 :=
        List.nodup_iff_count_le_one.mp hwf.1 s.userID
      omega
  · have hdisp : CreateSubmission db s = createSubmissionChecked db s (db.groups.count s.groupID) := by
      unfold CreateSubmission
      rw [if_neg (by omega), if_neg (by simp [hu]), if_neg (by omega), if_pos hg]
    rw [hdisp]
    apply createSubmissionChecked_fail
    rcases hmiss with ⟨hupos, _⟩ | ⟨_, hnog⟩ | hnoa
    · omega
    · rw [List.count_eq_zero.mpr hnog]
      omega
    · have hz : (db.assignments.filter (fun a => a.id == s.assignmentID)).length = 0 := by
        rw [List.filter_eq_nil_iff.mpr (fun a haa => by simp [hnoa a haa])]
        rfl
      have hcle : db.groups.count s.groupID ≤ 1 :=
        List.nodup_iff_count_le_one.mp hwf.2.1 s.groupID
      omega

/-- C2 witness: a well-shaped submission referencing the absent user 9
against the concrete store with only user 1. -/
theorem createSubmission_missing_reference_not_found_witness :
    CreateSubmission exDB0 exSubMissingUser = (.error .recordNotFound, exDB0) :=
  createSubmission_missing_reference_not_found exDB0 exSubMissingUser
    (by decide) (by decide) (Or.inl ⟨by decide, by decide⟩)
    (Or.inl ⟨by decide, by decide⟩)

/-- C1 counterexample. The claim says a submission with no assignment
reference fails with an `InvalidReference` error kind distinct from
`NotFound`; on the code the failure is `gorm.ErrRecordNotFound` itself,
the very error kind used for `NotFound`. -/
theorem createSubmission_error_kind_counterexample :
    CreateSubmission exDB0 exSubNoAssignment = (.error .recordNotFound, exDB0) ∧
    DBErr.recordNotFound ≠ DBErr.invalidReference :=
  ⟨rfl, by decide⟩

/-- C1 (amended): for every submission whose assignment reference is 0,
or whose user and group references are both set or both unset,
`CreateSubmission` fails with the store's record-not-found error — the
same error kind as `NotFound`, not a distinct `InvalidReference` — and
performs no write to the store. -/
theorem createSubmission_invalidShape_fails (db : DB) (s : Submission)
    (h : s.assignmentID = 0 ∨ (0 < s.userID ∧ 0 < s.groupID) ∨
         (s.userID = 0 ∧ s.groupID = 0)) :
    CreateSubmission db s = (.error .recordNotFound, db) := by
  unfold CreateSubmission
  rcases h with h | ⟨h1, h2⟩ | ⟨h1, h2⟩
  · simp [h]
  · by_cases hlt : s.assignmentID < 1 <;> simp [hlt, h1, h2]
  · by_cases hlt : s.assignmentID < 1 <;> simp [hlt, h1, h2]

/-- C1 witness: the amended theorem applied to a concrete store and a
submission with assignment reference 0. -/
theorem createSubmission_invalidShape_fails_witness :
    CreateSubmission exDB0 exSubNoAssignment = (.error .recordNotFound, exDB0) :=
  createSubmission_invalidShape_fails exDB0 exSubNoAssignment (Or.inl rfl)

/-- C5 counterexample. The claim says `UpdateSubmissions` sets status and
released for every status and released flag; with new status 0 (NONE) and
released false, the struct-based update skips both fields and the
qualifying row (assignment 1, score 50 ≥ threshold 0) keeps status 1 and
released true. -/
theorem updateSubmissions_zero_status_counterexample :
    (UpdateSubmissions c5DB 1 c5Q).2.submissions.map
        (fun r => (r.status, r.released)) = [(1, true)] ∧
    c5Q.status = 0 ∧ c5Q.released = false ∧ c5Q.score = 0 ∧
    c5DB.submissions.map (fun r => (r.assignmentID, r.score)) = [(1, 50)] :=
  ⟨rfl, rfl, rfl, rfl, rfl⟩

/-- C5 (amended): `UpdateSubmissions` succeeds, preserves the row count,
never modifies the id, references, score or test-result payload of any
row, leaves every row that is not (same assignment ∧ score ≥ threshold)
entirely unchanged, and on every qualifying row writes the new status
only when it is nonzero and the released flag only when it is true
(GORM's struct-based update skips zero-valued fields). -/
theorem updateSubmissions_threshold_frame (db : DB) (courseID : Nat) (q : Submission)
    (i : Nat) (r0 : Submission) (h : db.submissions[i]? = some r0) :
    (UpdateSubmissions db courseID q).1 = .ok () ∧
    (UpdateSubmissions db courseID q).2.submissions.length = db.submissions.length ∧
    ∃ r1, (UpdateSubmissions db courseID q).2.submissions[i]? = some r1 ∧
      r1.id = r0.id ∧ r1.assignmentID = r0.assignmentID ∧ r1.userID = r0.userID ∧
      r1.groupID = r0.groupID ∧ r1.score = r0.score ∧ r1.buildInfo = r0.buildInfo ∧
      (r0.assignmentID = q.assignmentID ∧ q.score ≤ r0.score →
        r1.status = (if q.status = 0 then r0.status else q.status) ∧
        r1.released = (q.released || r0.released)) ∧
      (¬(r0.assignmentID = q.assignmentID ∧ q.score ≤ r0.score) → r1 = r0) := by
  refine ⟨rfl, by simp [UpdateSubmissions], ?_⟩
  unfold UpdateSubmissions
  simp only [List.getElem?_map, h, Option.map_some]
  by_cases hc : r0.assignmentID = q.assignmentID ∧ q.score ≤ r0.score
  · refine ⟨bulkApproveRow q r0,
      by simp [hc.1, hc.2], rfl, rfl, rfl, rfl, rfl, rfl,
      fun _ => ⟨?_, ?_⟩, fun hn => absurd hc hn⟩
    · by_cases hs : q.status = 0 <;> simp [bulkApproveRow, hs]
    · by_cases hr : q.released <;> simp [bulkApproveRow, hr]
  · have hfalse : (r0.assignmentID == q.assignmentID && decide (q.score ≤ r0.score)) = false := by
      rcases not_and_or.mp hc with hx | hx
      · simp [hx]
      · simp [hx]
    refine ⟨r0, ?_, rfl, rfl, rfl, rfl, rfl, rfl,
      fun hcc => absurd hcc hc, fun _ => rfl⟩
    show some (if (r0.assignmentID == q.assignmentID && decide (q.score ≤ r0.score)) = true
        then bulkApproveRow q r0 else r0) = some r0
    rw [hfalse]
    simp

/-- C5 witness: the amended theorem applied to the concrete store with
one score-50 row for assignment 1 and an approving query. -/
theorem updateSubmissions_threshold_frame_witness :
    (UpdateSubmissions c5DB 1 { c5Q with status := 1, released := true }).2.submissions.length =
      c5DB.submissions.length :=
  (updateSubmissions_threshold_frame c5DB 1 { c5Q with status := 1, released := true } 0
    { id := 1, assignmentID := 1, userID := 1, groupID := 0, score := 50, status := 1,
      released := true, buildInfo := "" } rfl).2.1

/-- C8 counterexample. The claim says `UpdateReview` overwrites feedback,
review content, ready and score of the row matched by all three
identifiers; with every content field blank (empty strings, ready false,
score 0) the struct-based update skips all four and the matched row is
left with its old ready flag and feedback. -/
theorem updateReview_blank_fields_counterexample :
    (UpdateReview c8DB c8Q).2.reviews = c8DB.reviews ∧
    c8DB.reviews.map Review.ready = [true] ∧ c8Q.ready = false ∧
    c8DB.reviews.map Review.feedback = ["old"] ∧ c8Q.feedback = "" ∧
    c8DB.reviews.map (fun r => (r.id, r.submissionID, r.reviewerID)) = [(1, 2, 3)] ∧
    (c8Q.id, c8Q.submissionID, c8Q.reviewerID) = (1, 2, 3) :=
  ⟨rfl, rfl, rfl, rfl, rfl, rfl, rfl⟩

/-- C8 (amended): for a review update whose identifier, submission
reference and reviewer reference are all nonzero, `UpdateReview`
succeeds, preserves the row count, never alters the identity fields of
any row, leaves every row not matching all three identifiers entirely
unchanged (so a no-match call is a no-op and not an error), and on the
matched row overwrites feedback, review content and score only when the
incoming value is nonempty/nonzero and sets ready only when the incoming
flag is true (GORM's struct-based update skips blank fields). -/
theorem updateReview_match_frame (db : DB) (q : Review)
    (h1 : q.id ≠ 0) (h2 : q.submissionID ≠ 0) (h3 : q.reviewerID ≠ 0)
    (i : Nat) (r0 : Review) (h : db.reviews[i]? = some r0) :
    (UpdateReview db q).1 = .ok () ∧
    (UpdateReview db q).2.reviews.length = db.reviews.length ∧
    ∃ r1, (UpdateReview db q).2.reviews[i]? = some r1 ∧
      r1.id = r0.id ∧ r1.submissionID = r0.submissionID ∧ r1.reviewerID = r0.reviewerID ∧
      (¬(r0.id = q.id ∧ r0.submissionID = q.submissionID ∧ r0.reviewerID = q.reviewerID) →
        r1 = r0) ∧
      (r0.id = q.id ∧ r0.submissionID = q.submissionID ∧ r0.reviewerID = q.reviewerID →
        r1.feedback = (if q.feedback = "" then r0.feedback else q.feedback) ∧
        r1.review = (if q.review = "" then r0.review else q.review) ∧
        r1.ready = (q.ready || r0.ready) ∧
        r1.score = (if q.score = 0 then r0.score else q.score)) := by
  refine ⟨rfl, by simp [UpdateReview], ?_⟩
  unfold UpdateReview
  simp only [List.getElem?_map, h, Option.map_some]
  by_cases hm : r0.id = q.id ∧ r0.submissionID = q.submissionID ∧ r0.reviewerID = q.reviewerID
  · have hmt : matchReview q r0 = true := by
      simp [matchReview, hm.1, hm.2.1, hm.2.2]
    refine ⟨updateReviewRow q r0, by simp [hmt], rfl, rfl, rfl,
      fun hn => absurd hm hn, fun _ => ⟨?_, ?_, ?_, ?_⟩⟩
    · by_cases hf : q.feedback = "" <;> simp [updateReviewRow, hf]
    · by_cases hf : q.review = "" <;> simp [updateReviewRow, hf]
    · by_cases hf : q.ready <;> simp [updateReviewRow, hf]
    · by_cases hf : q.score = 0 <;> simp [updateReviewRow, hf]
  · have hmf : matchReview q r0 = false := by
      unfold matchReview
      rcases not_and_or.mp hm with hx | hxx
      · simp [h1, hx]
      · rcases not_and_or.mp hxx with hx | hx
        · simp [h2, hx]
        · simp [h3, hx]
    exact ⟨r0, by simp [hmf], rfl, rfl, rfl, fun _ => rfl, fun hmm => absurd hmm hm⟩

/-- C8 witness: the amended theorem applied to the concrete store with
one review row and a matching all-nonzero update. -/
theorem updateReview_match_frame_witness :
    (UpdateReview c8DB c8Q2).2.reviews.length = c8DB.reviews.length :=
  (updateReview_match_frame c8DB c8Q2 (by decide) (by decide) (by decide) 0
    { id := 1, submissionID := 2, reviewerID := 3, feedback := "old", review := "r",
      ready := true, score := 5 } rfl).2.1

/-- C9: calling `getStudentCourseForTeacher` (the spec's
`buildStudentLink`) with an explicitly empty assignment list returns a
link whose assignment/submission sequence is empty and performs no
provider call at all — in particular no submission fetch. -/
theorem buildStudentLink_empty_list (p : Provider) (ur : IUserRelation) (course : Course) :
    (getStudentCourseForTeacher p ur course []).1 =
      some { link := some { userid := ur.user.id, groupid := 0, courseid := course.id,
                            status := ur.status },
             course := course, assignments := [] } ∧
    (getStudentCourseForTeacher p ur course []).2 = [] :=
  ⟨rfl, rfl⟩

theorem find?_first_match {α : Type} (pred : α → Bool) (l1 l2 : List α) (s : α)
    (hf : ∀ x ∈ l1, pred x = false) (hs : pred s = true) :
    (l1 ++ s :: l2).find? pred = some s := by
  rw [List.find?_append, List.find?_eq_none.mpr (by intro x hx; simp [hf x hx]),
    Option.none_or]
  simp [List.find?_cons, hs]

/-- C7: for a course whose assignment list is `[a1, a2]`, where the
student's submission batch has a row for `a1` (found as `s1`) and none
for `a2`, `getStudentCourseForTeacher` (the spec's `buildStudentLink`)
returns a link whose pairing sequence follows the input assignment
order — `a1` paired with `s1` and `a2` with no submission, each stamped
with the student's display name — and carries the input `course` value
unchanged (the embedding is pure and the source only reads
`course.getId()`, so the input `Course` is never mutated). -/
theorem buildStudentLink_pairs_in_order (p : Provider) (ur : IUserRelation)
    (course : Course) (a1 a2 : Assignment) (s1 : LabRow)
    (h1 : (p.allLabInfos course.id ur.user.id).find?
        (fun sub => sub.assignmentid == a1.id) = some s1)
    (h2 : (p.allLabInfos course.id ur.user.id).find?
        (fun sub => sub.assignmentid == a2.id) = none) :
    (getStudentCourseForTeacher p ur course [a1, a2]).1 =
      some { link := some { userid := ur.user.id, groupid := 0, courseid := course.id,
                            status := ur.status },
             course := course,
             assignments := [{ assignment := a1, latest := some s1, authorName := ur.user.name },
                             { assignment := a2, latest := none, authorName := ur.user.name }] } := by
  unfold getStudentCourseForTeacher fillLinks
  simp [h1, h2]

/-- C7 witness: the theorem applied to the concrete provider serving a
score-80 row for assignment 1 and nothing for assignment 2. -/
theorem buildStudentLink_pairs_in_order_witness :
    (getStudentCourseForTeacher exProv exUR { id := 5 }
        [{ id := 1, courseID := 5 }, { id := 2, courseID := 5 }]).1 =
      some { link := some { userid := 7, groupid := 0, courseid := 5, status := 2 },
             course := { id := 5 },
             assignments := [{ assignment := { id := 1, courseID := 5 },
                               latest := some { id := 10, courseid := 5, userid := 7,
                                                groupid := 0, assignmentid := 1, score := 80 },
                               authorName := "S" },
                             { assignment := { id := 2, courseID := 5 },
                               latest := none, authorName := "S" }] } :=
  buildStudentLink_pairs_in_order exProv exUR { id := 5 } { id := 1, courseID := 5 }
    { id := 2, courseID := 5 } _ rfl rfl

/-- C10: when the fetched submission batch contains several rows with the
same assignment identifier, `fillLinks` (and `fillLinksGroup`) pairs that
assignment with the first matching row in the batch's order — the rows
after it (`l2` resp. `l2G`), which may include more recently created
submissions, are ignored — and the resulting link holds exactly one
entry (with a single optional submission) per input assignment. -/
theorem fillLinks_first_match (p : Provider) (student : User) (group : Group)
    (sc scG : IAssignmentLink) (e eG : Enrollment)
    (as asG : List Assignment) (i iG : Nat) (a aG : Assignment)
    (l1 l2 l1G l2G : List LabRow) (s1 s1G : LabRow)
    (hl : sc.link = some e) (he : sc.assignments = [])
    (hi : as[i]? = some a)
    (hb : p.allLabInfos sc.course.id student.id = l1 ++ s1 :: l2)
    (hs : s1.assignmentid = a.id)
    (hf : ∀ x ∈ l1, x.assignmentid ≠ a.id)
    (hlG : scG.link = some eG) (heG : scG.assignments = [])
    (hiG : asG[iG]? = some aG)
    (hbG : p.allGroupLabInfos scG.course.id group.id = l1G ++ s1G :: l2G)
    (hsG : s1G.assignmentid = aG.id)
    (hfG : ∀ x ∈ l1G, x.assignmentid ≠ aG.id) :
    ((fillLinks p student sc (some as)).1.assignments[i]? =
       some { assignment := a, latest := some s1, authorName := student.name }) ∧
    (fillLinks p student sc (some as)).1.assignments.length = as.length ∧
    ((fillLinksGroup p group scG (some asG)).1.assignments[iG]? =
       some { assignment := aG, latest := some s1G, authorName := group.name }) ∧
    (fillLinksGroup p group scG (some asG)).1.assignments.length = asG.length := by
  obtain ⟨link, course, asgs⟩ := sc
  obtain ⟨linkG, courseG, asgsG⟩ := scG
  simp only at hl he hb hlG heG hbG
  subst hl he hlG heG
  have hlen : 0 < as.length := by
    rcases List.getElem?_eq_some.mp hi with ⟨hlt, _⟩
    omega
  have hlenG : 0 < asG.length := by
    rcases List.getElem?_eq_some.mp hiG with ⟨hlt, _⟩
    omega
  have hfind : (p.allLabInfos course.id student.id).find?
      (fun sub => sub.assignmentid == a.id) = some s1 := by
    rw [hb]
    exact find?_first_match _ l1 l2 s1 (fun x hx => by simp [hf x hx]) (by simp [hs])
  have hfindG : (p.allGroupLabInfos courseG.id group.id).find?
      (fun sub => sub.assignmentid == aG.id) = some s1G := by
    rw [hbG]
    exact find?_first_match _ l1G l2G s1G (fun x hx => by simp [hfG x hx]) (by simp [hsG])
  unfold fillLinks fillLinksGroup
  simp only [List.nil_append, List.getElem?_map, List.length_map, hlen, hlenG,
    if_pos, hi, hiG, Option.map_some]
  refine ⟨?_, ?_, ?_, ?_⟩ <;> simp [hlen, hlenG, hfind, hfindG, hi, hiG]

/-- C10 witness: the theorem applied to a batch holding two rows for
assignment 1 (ids 11 then 12): both variants pair the assignment with
the first row (id 11), not the later one. -/
theorem fillLinks_first_match_witness :
    ((fillLinks exProvDup { id := 7, name := "S" } exLink
        (some [{ id := 1, courseID := 5 }])).1.assignments[0]? =
      some { assignment := { id := 1, courseID := 5 },
             latest := some { id := 11, courseid := 5, userid := 7, groupid := 3,
                              assignmentid := 1, score := 40 },
             authorName := "S" }) ∧
    ((fillLinksGroup exProvDup exGroup exLink
        (some [{ id := 1, courseID := 5 }])).1.assignments[0]? =
      some { assignment := { id := 1, courseID := 5 },
             latest := some { id := 11, courseid := 5, userid := 7, groupid := 3,
                              assignmentid := 1, score := 40 },
             authorName := "G" }) :=
  ⟨(fillLinks_first_match exProvDup { id := 7, name := "S" } exGroup exLink exLink
      (exLink.link.get rfl) (exLink.link.get rfl)
      [{ id := 1, courseID := 5 }] [{ id := 1, courseID := 5 }] 0 0
      { id := 1, courseID := 5 } { id := 1, courseID := 5 }
      [] [{ id := 12, courseid := 5, userid := 7, groupid := 3, assignmentid := 1, score := 90 }]
      [] [{ id := 12, courseid := 5, userid := 7, groupid := 3, assignmentid := 1, score := 90 }]
      { id := 11, courseid := 5, userid := 7, groupid := 3, assignmentid := 1, score := 40 }
      { id := 11, courseid := 5, userid := 7, groupid := 3, assignmentid := 1, score := 40 }
      rfl rfl rfl rfl rfl (by simp) rfl rfl rfl rfl rfl (by simp)).1,
   (fillLinks_first_match exProvDup { id := 7, name := "S" } exGroup exLink exLink
      (exLink.link.get rfl) (exLink.link.get rfl)
      [{ id := 1, courseID := 5 }] [{ id := 1, courseID := 5 }] 0 0
      { id := 1, courseID := 5 } { id := 1, courseID := 5 }
      [] [{ id := 12, courseid := 5, userid := 7, groupid := 3, assignmentid := 1, score := 90 }]
      [] [{ id := 12, courseid := 5, userid := 7, groupid := 3, assignmentid := 1, score := 90 }]
      { id := 11, courseid := 5, userid := 7, groupid := 3, assignmentid := 1, score := 40 }
      { id := 11, courseid := 5, userid := 7, groupid := 3, assignmentid := 1, score := 40 }
      rfl rfl rfl rfl rfl (by simp) rfl rfl rfl rfl rfl (by simp)).2.2.1⟩

/-- C3 (code-bug evaluation): upserting a zero-score submission for
(assignment 1, user 1) that also moves the stored row's status from 1 to
2 reports success yet leaves the stored score at 7, not the claimed 0.
The forced zero-score write's conditions come from the full row that
`db.conn.Last(query, query)` loaded into `query`; after the merge has
changed the row's status, those conditions (status = 1, score = 7) no
longer match the updated row, so the forced `Score = 0` update matches
zero rows. -/
theorem createSubmission_zero_score_stale_query_bug :
    (CreateSubmission exDB exSubRevision).1 = .ok { exSubRevision with id := 1 } ∧
    (CreateSubmission exDB exSubRevision).2.submissions.map Submission.score = [7] ∧
    exSubRevision.score = 0 ∧ [7] ≠ [(0 : Nat)] :=
  ⟨rfl, rfl, rfl, by decide⟩

end QF
